import Mathlib

/-!
Shallow embedding of `runhouse/rns/hardware/slurm_cluster.py` and
`runhouse/rns/tables/huggingface_table.py`.

The remote execution channel (`Cluster.run`, python) runs one shell command
string and yields a tuple indexed as `[0] = exit code`, `[1] = stdout`,
with a trailing stderr component.  We model it as a pure oracle
`exec : String → CmdResult`; the commands a method issues are recorded in an
explicit trace so that theorems can speak about which commands were sent.
-/

/-- Result of one remote command: exit code, captured stdout and stderr
(the python code indexes the tuple as `[0]` = code, `[1]` = stdout). -/
structure CmdResult where
  exitCode : Int
  stdout : String
  stderr : String
deriving Repr, DecidableEq

/-- The state of a `SlurmCluster` that the launcher and probe read:
`name` and the optional `partition` (python `self.partition`,
`None` when absent). -/
structure SlurmCluster where
  name : String
  partition : Option String
deriving Repr, DecidableEq

/-- Python truthiness of an optional string: `None` and `""` are falsy.
The source tests `if self.partition:` and `job_name or ...`. -/
def pyTruthy : Option String → Bool
  | none => false
  | some s => !s.isEmpty

/-- Python `a or b` for an optional string `a` and a string `b`:
the first truthy value. -/
def pyOrStr (a : Option String) (b : String) : String :=
  match a with
  | none => b
  | some s => if s.isEmpty then b else s

/-- Python `needle in hay` on strings: contiguous-substring containment. -/
def strContains (hay needle : String) : Bool :=
  decide (needle.data <:+: hay.data)

/-- Constant `SlurmCluster.PARTITION_SERVER_JOB` from the source. -/
def PARTITION_SERVER_JOB : String := "partition_server"

/-- Local `path_to_partition_server` from `_launch_partition_server`. -/
def pathToPartitionServer : String := "runhouse.servers.http.slurm.partition_server"

/-- The shell commands `SlurmCluster` issues, as structured values; `Cmd.str`
renders the exact command text the python code builds. -/
inductive Cmd where
  /-- Command `squeue --name {job_name}` issued by `_partition_server_is_running`. -/
  | probeQueue (jobName : String)
  /-- the `ps aux | grep ...` listing issued by `_partition_server_is_running`. -/
  | probePs
  /-- Command `squeue -n {job_name}` issued by `_launch_partition_server` (result
  feeds the dead `pass` branch only). -/
  | queueCheck (jobName : String)
  /-- Command `pkill -f {path_to_partition_server}`, the best-effort kill. -/
  | kill
  /-- the `srun` launch command (SCHEDULED path). -/
  | launchSrun (jobName : String)
  /-- the detached `screen` launch command (BACKGROUND path). -/
  | launchScreen
deriving Repr, DecidableEq

/-- The exact command string the python source builds for each `Cmd`. -/
def Cmd.str : Cmd → String
  | .probeQueue jobName => "squeue --name " ++ jobName
  | .probePs => "ps aux | grep \x27[r]unhouse.servers.http.slurm.partition_server\x27"
  | .queueCheck jobName => "squeue -n " ++ jobName
  | .kill => "pkill -f " ++ pathToPartitionServer
  | .launchSrun jobName =>
      "srun -J " ++ jobName ++ " -o %j.out -e %j.err python3 -m " ++ pathToPartitionServer
  | .launchScreen =>
      "screen -dm bash -c \x27python3 -m " ++ pathToPartitionServer ++
        " |& tee -a ~/.rh/" ++ PARTITION_SERVER_JOB ++ ".log 2>&1\x27"

/-- Method `SlurmCluster._partition_server_is_running(job_name)`: returns the boolean
result together with the commands it issued.  With a truthy partition it runs
`squeue --name {job_name}` and reports whether `job_name` occurs in the stdout;
otherwise it greps the process listing and reports whether the literal
`"partition_server"` occurs in the stdout. -/
def partition_server_is_running (c : SlurmCluster) (jobName : String)
    (exec : String → CmdResult) : Bool × List Cmd :=
  if pyTruthy c.partition then
    ((strContains (exec (Cmd.str (.probeQueue jobName))).stdout jobName),
      [.probeQueue jobName])
  else
    ((strContains (exec (Cmd.str .probePs)).stdout "partition_server"),
      [.probePs])

/-- Outcome of `_launch_partition_server`: normal return, or the raised
`Exception(f"Failed to launch partition server for {self.name}.")`. -/
inductive LaunchOutcome where
  | ok
  | err (msg : String)
deriving Repr, DecidableEq

/-- A run of `_launch_partition_server`: the commands issued, in order,
and the outcome. -/
structure LaunchRun where
  trace : List Cmd
  outcome : LaunchOutcome
deriving Repr, DecidableEq

/-- Method `SlurmCluster._launch_partition_server(restart_server, job_name=None)`.

Mirrors the source line by line: default the job name to
`PARTITION_SERVER_JOB` via python `or`; when `restart_server` is false,
probe and return immediately if running; otherwise with a truthy partition
run `squeue -n {job_name}` (whose match branch is `pass`) and build the
`srun` command, else run the best-effort `pkill` (result discarded) and
build the detached `screen` command; finally run the launch command and
raise when its exit code is non-zero. -/
def launch_partition_server (c : SlurmCluster) (restart_server : Bool)
    (job_name : Option String) (exec : String → CmdResult) : LaunchRun :=
  let jobName := pyOrStr job_name PARTITION_SERVER_JOB
  let probe : Bool × List Cmd :=
    if restart_server then (false, [])
    else partition_server_is_running c jobName exec
  if !restart_server && probe.1 then
    { trace := probe.2, outcome := .ok }
  else
    let launchCmd :=
      if pyTruthy c.partition then Cmd.launchSrun jobName else Cmd.launchScreen
    let midTrace :=
      if pyTruthy c.partition then [Cmd.queueCheck jobName] else [Cmd.kill]
    let res := exec (Cmd.str launchCmd)
    { trace := probe.2 ++ midTrace ++ [launchCmd]
    , outcome :=
        if res.exitCode != 0 then
          .err ("Failed to launch partition server for " ++ c.name ++ ".")
        else .ok }

/-- Constructor `SlurmCluster.__init__`: stores `partition`, and unless `dryrun` calls
`_launch_partition_server(restart_server=restart_server)` (with no explicit
job name); a raised launch exception aborts construction. -/
def SlurmCluster.init (name : String) (partition : Option String)
    (dryrun restart_server : Bool) (exec : String → CmdResult) :
    Except String SlurmCluster :=
  let c : SlurmCluster := { name := name, partition := partition }
  if dryrun then .ok c
  else
    match (launch_partition_server c restart_server none exec).outcome with
    | .ok => .ok c
    | .err m => .error m

/-- Whether a command is a launch command (the `srun` or `screen` launch). -/
def Cmd.isLaunch : Cmd → Bool
  | .launchSrun _ => true
  | .launchScreen => true
  | _ => false

/-- Number of launch commands in a trace. -/
def launchCount (tr : List Cmd) : Nat :=
  (tr.filter Cmd.isLaunch).length

/-! ### Job submission (`jump_run`) -/

/-- The structured submission request `jump_run` hands to
`self.client.submit_job`: the job name (python `job_name or self.name`),
the optional wrapped function object, the cluster partition and the
optional command list.  The function payload is kept opaque (a tag for the
wrapped callable). -/
structure SubmitCall where
  name : String
  fn_obj : Option String
  partition : Option String
  commands : Option (List String)
deriving Repr, DecidableEq

/-- Outcome of a submission at the client boundary. -/
inductive SubmitOutcome where
  /-- Error `ConfigurationError`: zero or two payload variants present. -/
  | configError
  /-- acknowledgment after the request was sent. -/
  | ack
deriving Repr, DecidableEq

/-- A submission run: how many outbound messages the transport sent, and
the outcome. -/
structure SubmitRun where
  outbound : Nat
  outcome : SubmitOutcome
deriving Repr, DecidableEq

/-- Modelled from the spec: `self.client.submit_job`, the
`JobSubmissionClient`, is not among the provided sources (only its caller
`jump_run` is).  Per the spec, the client validates that exactly one of the
function payload and the command list is present; a request with both or
neither fails with `ConfigurationError` before any network call (zero
outbound messages), and a valid request is sent as exactly one outbound
message and acknowledged. -/
def submit_job (call : SubmitCall) : SubmitRun :=
  if (call.fn_obj.isSome && call.commands.isSome) ||
      (call.fn_obj.isNone && call.commands.isNone) then
    { outbound := 0, outcome := .configError }
  else
    { outbound := 1, outcome := .ack }

/-- Method `SlurmCluster.jump_run(job_name, fn, commands, ...)`: wraps `fn` into a
function object when truthy (`fn_obj = function(...) if fn else None`,
named after the cluster), then delegates to `self.client.submit_job` with
`name=job_name or self.name`, the cluster partition and the commands. -/
def jump_run (c : SlurmCluster) (job_name : Option String)
    (fn : Option String) (commands : Option (List String)) :
    SubmitCall × SubmitRun :=
  let fn_obj : Option String := fn.map (fun _ => c.name)
  let call : SubmitCall :=
    { name := pyOrStr job_name c.name
    , fn_obj := fn_obj
    , partition := c.partition
    , commands := commands }
  (call, submit_job call)

/-! ### `HuggingFaceTable.save` -/

/-- Opaque stand-in for a pyarrow table. -/
structure ArrowTable where
  id : Nat
deriving Repr, DecidableEq

/-- A huggingface `Dataset`; `data_table` is the backing pyarrow table the
source reads as `self.data.data.table`. -/
structure Dataset where
  data_table : ArrowTable
deriving Repr, DecidableEq

/-- The possible values of the table's cached data (`self.data`, backed by
`self._cached_data`): a huggingface `Dataset`, a `DatasetDict`, a pyarrow
table, or anything else. -/
inductive TableData where
  | hfDataset (d : Dataset)
  | hfDatasetDict
  | arrow (t : ArrowTable)
  | otherData
deriving Repr, DecidableEq

/-- The state of a `HuggingFaceTable` that `save` touches: `self.data`
(i.e. `self._cached_data`), `none` when no data is cached. -/
structure HFTable where
  cached : Option TableData
deriving Repr, DecidableEq

/-- Errors `HuggingFaceTable.save` raises before delegating to the parent:
`NotImplementedError` for a `DatasetDict`, `TypeError` for any other
unsupported cached type. -/
inductive SaveError where
  | notImplemented
  | typeError
deriving Repr, DecidableEq

/-- A successful save: the table as left by `save` (after the restore step)
and the cached data as the parent `Table.save` observed it. -/
structure SaveOk where
  table : HFTable
  parentSaw : Option TableData
deriving Repr, DecidableEq

/-- Method `HuggingFaceTable.save`.  With cached data present: a `Dataset` is
temporarily replaced by its backing arrow table (`self.data, hf_dataset =
arrow_table, self.data`) before `super().save(...)` runs, and restored
afterwards (`self.data = hf_dataset`); a `DatasetDict` raises
`NotImplementedError` and any other type raises `TypeError`, both before
the parent save.  With no cached data the parent save runs directly.
`parentSave` abstracts `Table.save` (not among the provided sources) as the
cached data it leaves behind; any change it makes is overwritten by the
restore step when a dataset was swapped out. -/
def HFTable.save (t : HFTable)
    (parentSave : Option TableData → Option TableData) :
    Except SaveError SaveOk :=
  match t.cached with
  | none =>
      .ok { table := { cached := parentSave none }, parentSaw := none }
  | some (.hfDataset d) =>
      let arrow : TableData := .arrow d.data_table
      let afterParent := parentSave (some arrow)
      let _ := afterParent
      .ok { table := { cached := some (.hfDataset d) }, parentSaw := some arrow }
  | some .hfDatasetDict => .error .notImplemented
  | some (.arrow _) => .error .typeError
  | some .otherData => .error .typeError

example :
    (launch_partition_server { name := "c", partition := some "debug" } true none
      (fun _ => { exitCode := 0, stdout := "", stderr := "" })).trace =
      [.queueCheck "partition_server", .launchSrun "partition_server"] := by
  decide

example :
    (launch_partition_server { name := "c", partition := none } false none
      (fun _ => { exitCode := 0, stdout := "abc partition_server xyz", stderr := "" })).trace =
      [.probePs] := by
  decide

example :
    (jump_run { name := "c", partition := none } none (some "f") (some ["ls"])).2 =
      { outbound := 0, outcome := .configError } := by
  decide

/-! ### Helper lemmas -/

theorem string_data_append (a b : String) : (a ++ b).data = a.data ++ b.data := rfl

theorem strContains_iff (hay needle : String) :
    strContains hay needle = true ↔ needle.data <:+: hay.data := by
  simp [strContains]

theorem strContains_left (a b needle : String) (h : strContains a needle = true) :
    strContains (a ++ b) needle = true := by
  rw [strContains_iff] at h ⊢
  rw [string_data_append]
  exact h.trans (List.prefix_append a.data b.data).isInfix

theorem strContains_right (a b needle : String) (h : strContains b needle = true) :
    strContains (a ++ b) needle = true := by
  rw [strContains_iff] at h ⊢
  rw [string_data_append]
  exact h.trans (List.suffix_append a.data b.data).isInfix

theorem probe_fst_eq (c : SlurmCluster) (jn : String) (exec : String → CmdResult) :
    (partition_server_is_running c jn exec).1 =
      if pyTruthy c.partition then
        strContains (exec (Cmd.str (.probeQueue jn))).stdout jn
      else
        strContains (exec (Cmd.str .probePs)).stdout "partition_server" := by
  unfold partition_server_is_running
  split <;> rfl

theorem probe_snd_eq (c : SlurmCluster) (jn : String) (exec : String → CmdResult) :
    (partition_server_is_running c jn exec).2 =
      if pyTruthy c.partition then [Cmd.probeQueue jn] else [Cmd.probePs] := by
  unfold partition_server_is_running
  split <;> rfl

theorem launchCount_probe (c : SlurmCluster) (jn : String) (exec : String → CmdResult) :
    launchCount (partition_server_is_running c jn exec).2 = 0 := by
  rw [probe_snd_eq]
  split <;> rfl

theorem launch_noop_of_running (c : SlurmCluster) (j : Option String)
    (exec : String → CmdResult)
    (h : (partition_server_is_running c (pyOrStr j PARTITION_SERVER_JOB) exec).1 = true) :
    launch_partition_server c false j exec =
      { trace := (partition_server_is_running c (pyOrStr j PARTITION_SERVER_JOB) exec).2
      , outcome := .ok } := by
  unfold launch_partition_server
  simp [h]

theorem launch_go_trace (c : SlurmCluster) (j : Option String)
    (exec : String → CmdResult)
    (h : (partition_server_is_running c (pyOrStr j PARTITION_SERVER_JOB) exec).1 = false) :
    (launch_partition_server c false j exec).trace =
      (partition_server_is_running c (pyOrStr j PARTITION_SERVER_JOB) exec).2 ++
        (if pyTruthy c.partition
         then [Cmd.queueCheck (pyOrStr j PARTITION_SERVER_JOB),
               Cmd.launchSrun (pyOrStr j PARTITION_SERVER_JOB)]
         else [Cmd.kill, Cmd.launchScreen]) := by
  unfold launch_partition_server
  simp [h]
  split <;> rfl

theorem launch_restart_trace (c : SlurmCluster) (j : Option String)
    (exec : String → CmdResult) :
    (launch_partition_server c true j exec).trace =
      (if pyTruthy c.partition
       then [Cmd.queueCheck (pyOrStr j PARTITION_SERVER_JOB),
             Cmd.launchSrun (pyOrStr j PARTITION_SERVER_JOB)]
       else [Cmd.kill, Cmd.launchScreen]) := by
  unfold launch_partition_server
  simp
  split <;> rfl

theorem launchCount_append (a b : List Cmd) :
    launchCount (a ++ b) = launchCount a + launchCount b := by
  simp [launchCount]

theorem launchCount_strategy (jn : String) (p : Bool) :
    launchCount (if p then [Cmd.queueCheck jn, Cmd.launchSrun jn]
                 else [Cmd.kill, Cmd.launchScreen]) = 1 := by
  cases p <;> rfl

theorem launchCount_launch_eq (c : SlurmCluster) (j : Option String)
    (exec : String → CmdResult) :
    launchCount (launch_partition_server c false j exec).trace =
      (if (partition_server_is_running c (pyOrStr j PARTITION_SERVER_JOB) exec).1
       then 0 else 1) := by
  cases h : (partition_server_is_running c (pyOrStr j PARTITION_SERVER_JOB) exec).1
  · rw [launch_go_trace c j exec h, launchCount_append, launchCount_probe,
      launchCount_strategy]
    simp
  · rw [launch_noop_of_running c j exec h]
    simpa using launchCount_probe c (pyOrStr j PARTITION_SERVER_JOB) exec

/-- A remote executor on which every command exits 0 with empty output. -/
def execOkEmpty : String → CmdResult := fun _ => { exitCode := 0, stdout := "", stderr := "" }

/-- A remote executor whose process listing shows the control process. -/
def execRunningBG : String → CmdResult := fun _ =>
  { exitCode := 0
  , stdout := "user 1 python3 -m runhouse.servers.http.slurm.partition_server"
  , stderr := "" }

/-! ### Claim theorems -/

/-- Claim C1: with `restart_server` false, when the liveness probe reports
the control process already running, `_launch_partition_server` returns
immediately issuing no launch command; hence two successive calls with no
intervening external state change (encoded by `h2run`/`h2same`: a launch by
the first call leaves the probe reporting running, and if the first call
launched nothing the remote state is unchanged) issue at most one launch
command in total. -/
theorem ensureRunning_idempotent (c : SlurmCluster) (j : Option String)
    (exec1 exec2 : String → CmdResult)
    (h2run : launchCount (launch_partition_server c false j exec1).trace ≠ 0 →
      (partition_server_is_running c (pyOrStr j PARTITION_SERVER_JOB) exec2).1 = true)
    (h2same : launchCount (launch_partition_server c false j exec1).trace = 0 →
      exec2 = exec1) :
    ((partition_server_is_running c (pyOrStr j PARTITION_SERVER_JOB) exec1).1 = true →
      launchCount (launch_partition_server c false j exec1).trace = 0 ∧
      (launch_partition_server c false j exec1).outcome = .ok) ∧
    launchCount (launch_partition_server c false j exec1).trace +
      launchCount (launch_partition_server c false j exec2).trace ≤ 1 := by
  constructor
  · intro h
    rw [launch_noop_of_running c j exec1 h]
    exact ⟨launchCount_probe c _ exec1, rfl⟩
  · cases h : (partition_server_is_running c (pyOrStr j PARTITION_SERVER_JOB) exec1).1
    · have h1 : launchCount (launch_partition_server c false j exec1).trace = 1 := by
        rw [launchCount_launch_eq, h]
        simp
      have h2 := h2run (by rw [h1]; exact one_ne_zero)
      have h3 : launchCount (launch_partition_server c false j exec2).trace = 0 := by
        rw [launchCount_launch_eq, h2]
        simp
      rw [h1, h3]
    · have h1 : launchCount (launch_partition_server c false j exec1).trace = 0 := by
        rw [launchCount_launch_eq, h]
        simp
      have h3 : launchCount (launch_partition_server c false j exec2).trace = 0 := by
        rw [h2same h1]
        exact h1
      rw [h1, h3]
      simp

/-- Witness for C1: a single-node cluster whose process listing already
shows the control process; both calls issue zero launch commands. -/
theorem ensureRunning_idempotent_witness :
    ((partition_server_is_running { name := "c", partition := none }
        (pyOrStr none PARTITION_SERVER_JOB) execRunningBG).1 = true →
      launchCount (launch_partition_server { name := "c", partition := none }
        false none execRunningBG).trace = 0 ∧
      (launch_partition_server { name := "c", partition := none }
        false none execRunningBG).outcome = .ok) ∧
    launchCount (launch_partition_server { name := "c", partition := none }
        false none execRunningBG).trace +
      launchCount (launch_partition_server { name := "c", partition := none }
        false none execRunningBG).trace ≤ 1 :=
  ensureRunning_idempotent { name := "c", partition := none } none
    execRunningBG execRunningBG
    (fun h => absurd (by decide) h) (fun _ => rfl)

/-- Claim C2: a `jump_run` call with both the function payload and the
command list present, or with neither present, fails with
`ConfigurationError` at the client boundary and sends zero outbound
messages.  (The client `submit_job` is modelled from the spec, see its
doc comment.) -/
theorem jump_run_payload_validation (c : SlurmCluster) (jn : Option String)
    (fn : Option String) (commands : Option (List String))
    (h : (fn.isSome = true ∧ commands.isSome = true) ∨
      (fn = none ∧ commands = none)) :
    (jump_run c jn fn commands).2.outcome = .configError ∧
    (jump_run c jn fn commands).2.outbound = 0 := by
  cases fn <;> cases commands <;> simp_all [jump_run, submit_job]

/-- Witness for C2: both payloads present. -/
theorem jump_run_payload_validation_witness :
    (jump_run { name := "c", partition := none } none (some "f")
        (some ["ls"])).2.outcome = .configError ∧
    (jump_run { name := "c", partition := none } none (some "f")
        (some ["ls"])).2.outbound = 0 :=
  jump_run_payload_validation { name := "c", partition := none } none
    (some "f") (some ["ls"]) (Or.inl (by decide))

/-- Claim C3 counterexample: a cluster whose partition is present but empty
(python `if self.partition:` is false for `""`) takes the BACKGROUND path
(`pkill` then `screen`), refuting "SCHEDULED exactly when partitionId is
present". -/
theorem strategy_selection_cex :
    ({ name := "c", partition := some "" } : SlurmCluster).partition ≠ none ∧
    (launch_partition_server { name := "c", partition := some "" } true none
        execOkEmpty).trace = [Cmd.kill, Cmd.launchScreen] := by
  decide

/-- Claim C3 (amended): `_launch_partition_server` selects the BACKGROUND
strategy exactly when `self.partition` is falsy (absent or the empty
string) and the SCHEDULED strategy exactly when it is truthy, for both the
launch commands and the liveness probe. -/
theorem strategy_selection (c : SlurmCluster) (j : Option String)
    (exec : String → CmdResult) :
    (launch_partition_server c true j exec).trace =
      (if pyTruthy c.partition
       then [Cmd.queueCheck (pyOrStr j PARTITION_SERVER_JOB),
             Cmd.launchSrun (pyOrStr j PARTITION_SERVER_JOB)]
       else [Cmd.kill, Cmd.launchScreen]) ∧
    (partition_server_is_running c (pyOrStr j PARTITION_SERVER_JOB) exec).2 =
      (if pyTruthy c.partition
       then [Cmd.probeQueue (pyOrStr j PARTITION_SERVER_JOB)]
       else [Cmd.probePs]) :=
  ⟨launch_restart_trace c j exec,
    probe_snd_eq c (pyOrStr j PARTITION_SERVER_JOB) exec⟩

/-- Claim C6 counterexample: for a cluster named `"debug-cluster"` with
partition `"debug"` and no explicit job name, the queue-status query is
`squeue --name partition_server` — the class-constant default, which does
not mention the cluster's own name. -/
theorem default_job_name_cex :
    (launch_partition_server { name := "debug-cluster", partition := some "debug" }
        false none execOkEmpty).trace.head? =
      some (Cmd.probeQueue "partition_server") ∧
    Cmd.str (Cmd.probeQueue "partition_server") = "squeue --name partition_server" ∧
    strContains (Cmd.str (Cmd.probeQueue "partition_server")) "debug-cluster" = false := by
  decide

/-- Claim C6 (amended): when `_launch_partition_server` is called without an
explicit job name, the job name used by the queue-status query and the
launch command defaults to the class constant `"partition_server"`
(`PARTITION_SERVER_JOB`), not the cluster's own name. -/
theorem default_job_name (c : SlurmCluster) (exec : String → CmdResult) :
    (launch_partition_server c true none exec).trace =
      (if pyTruthy c.partition
       then [Cmd.queueCheck "partition_server", Cmd.launchSrun "partition_server"]
       else [Cmd.kill, Cmd.launchScreen]) ∧
    (launch_partition_server c false none exec).trace.head? =
      some (if pyTruthy c.partition then Cmd.probeQueue "partition_server"
            else Cmd.probePs) := by
  constructor
  · exact launch_restart_trace c none exec
  · cases h : (partition_server_is_running c (pyOrStr none PARTITION_SERVER_JOB) exec).1
    · rw [launch_go_trace c none exec h, probe_snd_eq]
      cases hp : pyTruthy c.partition <;> simp [hp, pyOrStr, PARTITION_SERVER_JOB]
    · rw [launch_noop_of_running c none exec h, probe_snd_eq]
      cases hp : pyTruthy c.partition <;> simp [hp, pyOrStr, PARTITION_SERVER_JOB]

theorem pyOrStr_none (b : String) : pyOrStr none b = b := rfl

theorem launch_restart_outcome (c : SlurmCluster) (j : Option String)
    (exec : String → CmdResult) :
    (launch_partition_server c true j exec).outcome =
      (if (exec (Cmd.str (if pyTruthy c.partition
            then Cmd.launchSrun (pyOrStr j PARTITION_SERVER_JOB)
            else Cmd.launchScreen))).exitCode != 0
       then .err ("Failed to launch partition server for " ++ c.name ++ ".")
       else .ok) := by
  unfold launch_partition_server
  cases hp : pyTruthy c.partition <;> simp [hp]

theorem launchCount_restart (c : SlurmCluster) (j : Option String)
    (exec : String → CmdResult) :
    launchCount (launch_partition_server c true j exec).trace = 1 := by
  rw [launch_restart_trace]
  exact launchCount_strategy _ _

/-- Claim C4 counterexample: the error raised on a failed launch carries
only the cluster name — the launch command's stderr (here "SOMEERR") is not
part of it, and the whole run is unchanged when that stderr changes. -/
theorem launch_failure_cex :
    (launch_partition_server { name := "mycluster", partition := none } true none
        (fun _ => { exitCode := 1, stdout := "", stderr := "SOMEERR" })).outcome =
      .err "Failed to launch partition server for mycluster." ∧
    strContains "Failed to launch partition server for mycluster." "SOMEERR" = false ∧
    launch_partition_server { name := "mycluster", partition := none } true none
        (fun _ => { exitCode := 1, stdout := "", stderr := "SOMEERR" }) =
      launch_partition_server { name := "mycluster", partition := none } true none
        (fun _ => { exitCode := 1, stdout := "", stderr := "OTHER" }) := by
  decide

/-- Claim C4 (amended): when the final launch command exits non-zero,
`_launch_partition_server` raises an error carrying the cluster name (the
fixed message `Failed to launch partition server for {name}.`; the
command's stderr is not included), exactly one launch command was issued
(no retry at this layer), and the failure aborts `SlurmCluster.__init__`. -/
theorem launch_failure_fatal (name : String) (partition : Option String)
    (exec : String → CmdResult)
    (h : (exec (Cmd.str (if pyTruthy partition
        then Cmd.launchSrun PARTITION_SERVER_JOB
        else Cmd.launchScreen))).exitCode ≠ 0) :
    (launch_partition_server { name := name, partition := partition }
        true none exec).outcome =
      .err ("Failed to launch partition server for " ++ name ++ ".") ∧
    launchCount (launch_partition_server { name := name, partition := partition }
        true none exec).trace = 1 ∧
    SlurmCluster.init name partition false true exec =
      .error ("Failed to launch partition server for " ++ name ++ ".") := by
  have hout : (launch_partition_server { name := name, partition := partition }
      true none exec).outcome =
      .err ("Failed to launch partition server for " ++ name ++ ".") := by
    rw [launch_restart_outcome]
    simp only [pyOrStr_none]
    simp [h]
  refine ⟨hout, launchCount_restart _ none exec, ?_⟩
  unfold SlurmCluster.init
  simp [hout]

/-- Witness for C4: a failing detached launch on a single-node cluster. -/
theorem launch_failure_fatal_witness :
    (launch_partition_server { name := "mycluster", partition := none } true none
        (fun _ => { exitCode := 1, stdout := "", stderr := "boom" })).outcome =
      .err ("Failed to launch partition server for " ++ "mycluster" ++ ".") ∧
    launchCount (launch_partition_server { name := "mycluster", partition := none }
        true none (fun _ => { exitCode := 1, stdout := "", stderr := "boom" })).trace = 1 ∧
    SlurmCluster.init "mycluster" none false true
        (fun _ => { exitCode := 1, stdout := "", stderr := "boom" }) =
      .error ("Failed to launch partition server for " ++ "mycluster" ++ ".") :=
  launch_failure_fatal "mycluster" none
    (fun _ => { exitCode := 1, stdout := "", stderr := "boom" }) (by decide)

/-- Claim C5 counterexample: with the empty job name the probe returns true
on an empty queue listing (python `"" in ""` is `True`), refuting "for
every job name it returns false on an empty listing". -/
theorem probe_scheduled_cex :
    (partition_server_is_running { name := "c", partition := some "debug" } ""
        execOkEmpty).1 = true := by
  decide

/-- Claim C5 (amended): under a truthy partition,
`_partition_server_is_running` returns true iff the job name is a substring
of the queue listing (a purely textual containment check), and for every
NON-EMPTY job name it returns false on an empty listing. -/
theorem probe_scheduled_substring (c : SlurmCluster) (jobName : String)
    (exec : String → CmdResult) (h : pyTruthy c.partition = true) :
    ((partition_server_is_running c jobName exec).1 = true ↔
      jobName.data <:+: (exec (Cmd.str (.probeQueue jobName))).stdout.data) ∧
    (jobName ≠ "" → (exec (Cmd.str (.probeQueue jobName))).stdout = "" →
      (partition_server_is_running c jobName exec).1 = false) := by
  constructor
  · rw [probe_fst_eq]
    simp only [h, if_true]
    exact strContains_iff _ _
  · intro hne hemp
    rw [probe_fst_eq]
    simp only [h, if_true]
    rw [hemp]
    obtain ⟨l⟩ := jobName
    simp only [strContains, decide_eq_false_iff_not]
    intro hinf
    have hl : l = [] := List.infix_nil.mp hinf
    exact hne (by rw [hl])

/-- Witness for C5 (amended) at job name "partition_server" and an empty
queue listing. -/
theorem probe_scheduled_substring_witness :
    (((partition_server_is_running { name := "c", partition := some "debug" }
        "partition_server" execOkEmpty).1 = true ↔
      ("partition_server" : String).data <:+:
        (execOkEmpty (Cmd.str (.probeQueue "partition_server"))).stdout.data) ∧
    (("partition_server" : String) ≠ "" →
      (execOkEmpty (Cmd.str (.probeQueue "partition_server"))).stdout = "" →
      (partition_server_is_running { name := "c", partition := some "debug" }
        "partition_server" execOkEmpty).1 = false)) :=
  probe_scheduled_substring { name := "c", partition := some "debug" }
    "partition_server" execOkEmpty (by decide)

theorem strContains_refl (a : String) : strContains a a = true :=
  (strContains_iff a a).mpr (List.infix_refl a.data)

set_option maxRecDepth 8192 in
/-- Claim C7 counterexample: for partition "debug" the submitted launch
command is `srun -J partition_server -o %j.out -e %j.err python3 -m
runhouse.servers.http.slurm.partition_server`; the partition identifier
does not appear in it. -/
theorem scheduled_launch_cmd_cex :
    (launch_partition_server { name := "c", partition := some "debug" } true none
        execOkEmpty).trace.getLast? = some (Cmd.launchSrun "partition_server") ∧
    strContains (Cmd.str (Cmd.launchSrun "partition_server")) "debug" = false := by
  decide

/-- Claim C7 (amended): under a truthy partition the final launch command is
`srun -J {jobName} -o %j.out -e %j.err python3 -m {module}`: it requests a
named job (`-J`), keys the stdout/stderr files by the scheduler-assigned
job id (`%j.out`, `%j.err`) and runs the control-process entry point; the
partition identifier is not part of the command (no `-p` flag). -/
theorem scheduled_launch_cmd (c : SlurmCluster) (j : Option String)
    (exec : String → CmdResult) (h : pyTruthy c.partition = true) :
    (launch_partition_server c true j exec).trace.getLast? =
      some (Cmd.launchSrun (pyOrStr j PARTITION_SERVER_JOB)) ∧
    Cmd.str (Cmd.launchSrun (pyOrStr j PARTITION_SERVER_JOB)) =
      "srun -J " ++ pyOrStr j PARTITION_SERVER_JOB ++
        " -o %j.out -e %j.err python3 -m " ++
        "runhouse.servers.http.slurm.partition_server" ∧
    strContains (Cmd.str (Cmd.launchSrun (pyOrStr j PARTITION_SERVER_JOB)))
      "-J " = true ∧
    strContains (Cmd.str (Cmd.launchSrun (pyOrStr j PARTITION_SERVER_JOB)))
      "%j.out" = true ∧
    strContains (Cmd.str (Cmd.launchSrun (pyOrStr j PARTITION_SERVER_JOB)))
      "%j.err" = true ∧
    strContains (Cmd.str (Cmd.launchSrun (pyOrStr j PARTITION_SERVER_JOB)))
      "runhouse.servers.http.slurm.partition_server" = true := by
  refine ⟨?_, rfl, ?_, ?_, ?_, ?_⟩
  · rw [launch_restart_trace]
    simp [h]
  · exact strContains_left _ _ _ (strContains_left _ _ _
      (strContains_left "srun -J " _ _ (by decide)))
  · exact strContains_left _ _ _ (strContains_right _
      " -o %j.out -e %j.err python3 -m " _ (by decide))
  · exact strContains_left _ _ _ (strContains_right _
      " -o %j.out -e %j.err python3 -m " _ (by decide))
  · exact strContains_right _ _ _ (strContains_refl _)

/-- Witness for C7 (amended) at partition "debug" with the default job
name. -/
theorem scheduled_launch_cmd_witness :
    (launch_partition_server { name := "c", partition := some "debug" } true none
        execOkEmpty).trace.getLast? =
      some (Cmd.launchSrun (pyOrStr none PARTITION_SERVER_JOB)) ∧
    Cmd.str (Cmd.launchSrun (pyOrStr none PARTITION_SERVER_JOB)) =
      "srun -J " ++ pyOrStr none PARTITION_SERVER_JOB ++
        " -o %j.out -e %j.err python3 -m " ++
        "runhouse.servers.http.slurm.partition_server" ∧
    strContains (Cmd.str (Cmd.launchSrun (pyOrStr none PARTITION_SERVER_JOB)))
      "-J " = true ∧
    strContains (Cmd.str (Cmd.launchSrun (pyOrStr none PARTITION_SERVER_JOB)))
      "%j.out" = true ∧
    strContains (Cmd.str (Cmd.launchSrun (pyOrStr none PARTITION_SERVER_JOB)))
      "%j.err" = true ∧
    strContains (Cmd.str (Cmd.launchSrun (pyOrStr none PARTITION_SERVER_JOB)))
      "runhouse.servers.http.slurm.partition_server" = true :=
  scheduled_launch_cmd { name := "c", partition := some "debug" } none
    execOkEmpty (by decide)

/-- A remote executor that reports a failing `pkill` and succeeds on
everything else. -/
def execKillFails : String → CmdResult := fun s =>
  if s = Cmd.str Cmd.kill
  then { exitCode := 1, stdout := "", stderr := "no such process" }
  else execOkEmpty s

/-- Claim C8: under the BACKGROUND strategy the launcher issues the
kill-by-name command before the detached launch; the kill result is never
inspected (two executors agreeing on the probe listing and the launch
command — but free to differ on the kill — produce identical runs), and
only the final launch command's exit code decides success. -/
theorem background_kill_best_effort (c : SlurmCluster) (restart : Bool)
    (j : Option String) (exec exec2 : String → CmdResult)
    (h : pyTruthy c.partition = false)
    (hps : exec2 (Cmd.str .probePs) = exec (Cmd.str .probePs))
    (hsc : exec2 (Cmd.str .launchScreen) = exec (Cmd.str .launchScreen)) :
    (launch_partition_server c true j exec).trace = [Cmd.kill, Cmd.launchScreen] ∧
    launch_partition_server c restart j exec2 =
      launch_partition_server c restart j exec ∧
    ((launch_partition_server c true j exec).outcome = .ok ↔
      (exec (Cmd.str Cmd.launchScreen)).exitCode = 0) := by
  refine ⟨?_, ?_, ?_⟩
  · rw [launch_restart_trace]
    simp [h]
  · unfold launch_partition_server partition_server_is_running
    cases restart <;> simp [h, hps, hsc]
  · rw [launch_restart_outcome]
    simp only [h, if_false]
    by_cases he : (exec (Cmd.str Cmd.launchScreen)).exitCode = 0 <;> simp [he]

/-- Witness for C8: single-node cluster, failing kill, successful launch. -/
theorem background_kill_best_effort_witness :
    (launch_partition_server { name := "c", partition := none } true none
        execOkEmpty).trace = [Cmd.kill, Cmd.launchScreen] ∧
    launch_partition_server { name := "c", partition := none } true none
        execKillFails =
      launch_partition_server { name := "c", partition := none } true none
        execOkEmpty ∧
    ((launch_partition_server { name := "c", partition := none } true none
        execOkEmpty).outcome = .ok ↔
      (execOkEmpty (Cmd.str Cmd.launchScreen)).exitCode = 0) :=
  background_kill_best_effort { name := "c", partition := none } true none
    execOkEmpty execKillFails (by decide) (by decide) (by decide)

/-- Claim C9: under the BACKGROUND strategy the liveness probe ignores the
job name entirely — for any two job names and the same executor it returns
the same run — because it only tests the fixed literal
`"partition_server"` against the process listing. -/
theorem background_probe_jobname_independent (c : SlurmCluster)
    (j1 j2 : String) (exec : String → CmdResult)
    (h : pyTruthy c.partition = false) :
    partition_server_is_running c j1 exec =
      partition_server_is_running c j2 exec ∧
    (partition_server_is_running c j1 exec).1 =
      strContains (exec (Cmd.str .probePs)).stdout "partition_server" := by
  unfold partition_server_is_running
  simp [h]

/-- Witness for C9: two distinct job names over the same listing. -/
theorem background_probe_jobname_independent_witness :
    partition_server_is_running { name := "c", partition := none } "a"
        execRunningBG =
      partition_server_is_running { name := "c", partition := none } "b"
        execRunningBG ∧
    (partition_server_is_running { name := "c", partition := none } "a"
        execRunningBG).1 =
      strContains (execRunningBG (Cmd.str .probePs)).stdout "partition_server" :=
  background_probe_jobname_independent { name := "c", partition := none }
    "a" "b" execRunningBG (by decide)

/-- Claim C10: `HuggingFaceTable.save` restores the cached data after
saving — when the cached data is a huggingface `Dataset`, the parent save
observes the temporary arrow conversion and the returned table holds the
original `Dataset` again — while any other present cached type fails
before delegating to the parent save (the result does not depend on the
parent-save function at all). -/
theorem hf_save_restores_data (d : Dataset) (v : TableData)
    (hv : ∀ d0, v ≠ TableData.hfDataset d0)
    (ps ps2 : Option TableData → Option TableData) :
    HFTable.save { cached := some (.hfDataset d) } ps =
      .ok { table := { cached := some (.hfDataset d) }
          , parentSaw := some (.arrow d.data_table) } ∧
    (∃ e, HFTable.save { cached := some v } ps = .error e) ∧
    HFTable.save { cached := some v } ps = HFTable.save { cached := some v } ps2 := by
  refine ⟨rfl, ?_, ?_⟩
  · cases v with
    | hfDataset d0 => exact absurd rfl (hv d0)
    | hfDatasetDict => exact ⟨.notImplemented, rfl⟩
    | arrow t => exact ⟨.typeError, rfl⟩
    | otherData => exact ⟨.typeError, rfl⟩
  · cases v with
    | hfDataset d0 => exact absurd rfl (hv d0)
    | hfDatasetDict => rfl
    | arrow t => rfl
    | otherData => rfl

/-- Witness for C10: a concrete dataset and a `DatasetDict`. -/
theorem hf_save_restores_data_witness :
    HFTable.save { cached := some (.hfDataset { data_table := { id := 0 } }) } id =
      .ok { table := { cached := some (.hfDataset { data_table := { id := 0 } }) }
          , parentSaw := some (.arrow { id := 0 }) } ∧
    (∃ e, HFTable.save { cached := some .hfDatasetDict } id = .error e) ∧
    HFTable.save { cached := some .hfDatasetDict } id =
      HFTable.save { cached := some .hfDatasetDict } (fun _ => none) :=
  hf_save_restores_data { data_table := { id := 0 } } .hfDatasetDict
    (fun _ h => TableData.noConfusion h) id (fun _ => none)
